import Mathlib

/-!
Verification of the request pipeline of `src/services/githubService.ts`
(github-board): the dedup cache, the request queue with cooldown, the
retry/backoff classification, the credential (token) lifecycle and the
pagination loops.  Every definition below is a shallow embedding of the
corresponding TypeScript function; timestamps and durations are `Nat`
milliseconds, JS promises become explicit outcome values, and the module
level mutable variables become fields of explicit state records.
-/

namespace GithubBoard

/-- Constant `CACHE_EXPIRY = 30 * 60 * 1000` (githubService.ts line 137). -/
def CACHE_EXPIRY : Nat := 30 * 60 * 1000

/-- Constant `REQUEST_DELAY = 1000` (line 164). -/
def REQUEST_DELAY : Nat := 1000

/-- Constant `MAX_FORBIDDEN_ERRORS = 3` (line 170). -/
def MAX_FORBIDDEN_ERRORS : Nat := 3

/-- Constant `FORBIDDEN_COOLDOWN = 60000` (line 172). -/
def FORBIDDEN_COOLDOWN : Nat := 60000

/-- Does the pattern occur at the head of the list?  Helper for the model of
JS `String.prototype.includes`: true when the first list is an initial
segment of the second. -/
def prefixEq : List Char → List Char → Bool
  | [], _ => true
  | _ :: _, [] => false
  | a :: as, b :: bs => a == b && prefixEq as bs

/-- Does `pat` occur as a contiguous run anywhere in the list?  Model of JS
`String.prototype.includes` on the underlying character sequences. -/
def containsSeq (pat : List Char) : List Char → Bool
  | [] => prefixEq pat []
  | c :: cs => prefixEq pat (c :: cs) || containsSeq pat cs

/-- `strContains s pat` models the JS expression `s.includes(pat)`, used by
`cachedRequest` to classify errors by message substring (lines 250, 259,
396, 408). -/
def strContains (s pat : String) : Bool := containsSeq pat.data s.data

/-- The module-level mutable variables of githubService.ts that track the
credential and the quota: `GITHUB_TOKEN` (line 65), `remainingRequests`
(line 165), `resetTime` (line 166), `forbiddenErrorCount` (line 169) and
`lastForbiddenErrorTime` (line 171). -/
structure ApiState where
  token : String
  remainingRequests : Nat
  resetTime : Nat
  forbiddenErrorCount : Nat
  lastForbiddenErrorTime : Nat
deriving DecidableEq, Repr

/-- The observable settlement state of one cached promise, as inspected by
`cleanupCache`: still pending, resolved (with the `_timestamp` property the
response handler attaches at line 383, when present), or rejected. -/
inductive EntryState where
  | pending
  | resolved (timestamp : Option Nat)
  | rejected
deriving DecidableEq, Repr

/-- The dedup cache `cache : Map<string, Promise<any>>` (line 134), as an
association list from serialized request descriptors to promise states. -/
abbrev Cache := List (String × EntryState)

/-- `cleanupCache` keeps an entry unless (a) its promise rejected, which is
always removed, or (b) it resolved to an object whose `_timestamp` is
truthy (non-zero) and lies more than `CACHE_EXPIRY` in the past
(lines 145-155: `result && result._timestamp && now - result._timestamp >
CACHE_EXPIRY`). -/
def keepEntry (now : Nat) : EntryState → Bool
  | .pending => true
  | .resolved none => true
  | .resolved (some t) => if t ≠ 0 ∧ CACHE_EXPIRY < now - t then false else true
  | .rejected => false

/-- `cleanupCache` (lines 140-156): iterates over all cache entries and
deletes the expired resolved ones and all rejected ones.  It is invoked by
`setInterval` every 5 minutes (line 159). -/
def cleanupCache (now : Nat) (cache : Cache) : Cache :=
  cache.filter (fun kv => keepEntry now kv.2)

/-- Whitespace test for the model of JS `String.prototype.trim` (only the
ASCII whitespace characters that matter for token strings). -/
def isWhitespaceChar (c : Char) : Bool :=
  c == ' ' || c == '\t' || c == '\n' || c == '\r'

/-- Model of `token.trim()` (line 72): strip leading and trailing
whitespace. -/
def trimChars (s : String) : String :=
  String.mk (((s.data.dropWhile isWhitespaceChar).reverse.dropWhile isWhitespaceChar).reverse)

/-- `setGitHubToken` (lines 71-131), restricted to its synchronous state
effects: an empty / whitespace-only token is rejected and nothing changes
(lines 72-75); otherwise the token is stored, the quota variables are reset
to the authenticated defaults `forbiddenErrorCount = 0`,
`lastForbiddenErrorTime = 0`, `remainingRequests = 5000`,
`resetTime = now + 3600000` (lines 86-93) and the dedup cache is cleared
(line 96).  The fire-and-forget `/rate_limit` validation probe
(lines 100-130) only logs and later overwrites the quota from real
response headers; it is outside this synchronous step. -/
def setGitHubToken (token : String) (now : Nat) (s : ApiState) (cache : Cache) :
    ApiState × Cache :=
  if trimChars token = "" then (s, cache)
  else
    ({ token := token, remainingRequests := 5000, resetTime := now + 3600000,
       forbiddenErrorCount := 0, lastForbiddenErrorTime := 0 }, [])

/-- Is there a cache entry under this key?  Models `cache.has(cacheKey)`
(line 243). -/
def hasEntry (cache : Cache) (key : String) : Bool :=
  cache.any (fun kv => kv.1 == key)

/-- The cache interaction of one call to `cachedRequest` (lines 240-428).
On a hit (line 243) the cached promise chain is returned and no new fetch
is started.  On a miss the function builds a fresh promise whose executor
pushes `executeRequest` (one `fetch`) onto the request queue
(lines 269-427) — and, exactly as in the source, never stores that promise
in the cache: this version of `cachedRequest` contains no `cache.set`
call, so the cache is left unchanged on the miss path too. -/
structure CallStep where
  issuesNetworkCall : Bool
  cacheAfter : Cache
deriving DecidableEq

/-- See `CallStep`: the dedup decision of `cachedRequest` (lines 240-428).
The miss branch mirrors the source faithfully in performing no insertion
into `cache`. -/
def cachedRequest (cache : Cache) (key : String) : CallStep :=
  if hasEntry cache key then { issuesNetworkCall := false, cacheAfter := cache }
  else { issuesNetworkCall := true, cacheAfter := cache }

/-- One HTTP response as seen by the handler inside `executeRequest`
(lines 300-388): the status code, the numeric values of the
`X-RateLimit-Remaining`, `X-RateLimit-Reset` and `Retry-After` headers
when present (the source parses them with `parseInt`), and the error
message extracted from the body / status text for the non-ok branch. -/
structure Response where
  status : Nat
  rateLimitRemaining : Option Nat
  rateLimitReset : Option Nat
  retryAfter : Option Nat
  errorMessage : String
deriving DecidableEq, Repr

/-- An error thrown by the response handler or by the transport: a message
plus the `retryDelay` property the 403 branch attaches (line 354). -/
structure ApiError where
  message : String
  retryDelay : Option Nat
deriving DecidableEq, Repr

/-- The settlement of one executed attempt: the promise resolves with the
parsed body, or rejects with an `ApiError`. -/
inductive FetchOutcome where
  | success
  | failure (e : ApiError)
deriving DecidableEq, Repr

/-- The error of an outcome, when it is a failure. -/
def FetchOutcome.errOpt : FetchOutcome → Option ApiError
  | .success => none
  | .failure e => some e

/-- Result of running the response handler once: the quota state after it,
whether `cache.delete(cacheKey)` was executed, and the settlement. -/
structure HandleResult where
  state : ApiState
  cacheDeleted : Bool
  outcome : FetchOutcome
deriving DecidableEq, Repr

/-- Lines 303-314: overwrite `remainingRequests` and `resetTime` from the
`X-RateLimit-Remaining` / `X-RateLimit-Reset` headers when present (the
reset header is epoch seconds, multiplied by 1000). -/
def applySignals (s : ApiState) (r : Response) : ApiState :=
  let s1 :=
    match r.rateLimitRemaining with
    | some n => { s with remainingRequests := n }
    | none => s
  match r.rateLimitReset with
  | some t => { s1 with resetTime := t * 1000 }
  | none => s1

/-- Message of the quota-exhausted error (line 330), with
`Math.ceil(waitTime / 1000)` seconds interpolated. -/
def rateLimitMessage (secs : Nat) : String :=
  "API rate limit exceeded. Resets in " ++ (toString secs ++ " seconds.")

/-- Message of the access-denied error (line 350). -/
def forbiddenMessage (secs : Nat) : String :=
  "GitHub API 접근이 거부되었습니다 (403 Forbidden). " ++ (toString secs ++ "초 후 자동 재시도합니다.")

/-- Message of the generic HTTP error (line 370). -/
def httpErrorMessage (status : Nat) (msg : String) : String :=
  "HTTP Error: " ++ (toString status ++ (" - " ++ msg))

/-- The response handler of `executeRequest` (lines 300-388).  Order of
the source: apply quota headers (303-314); status 204 resolves with `[]`
(316-318); status 403 first increments `forbiddenErrorCount` and stamps
`lastForbiddenErrorTime` (321-323), then — if the updated
`remainingRequests` is 0 — throws the rate-limit error after deleting the
cache entry (325-332), otherwise computes
`retryDelay = forbiddenErrorCount * 10000`, overridden by
`Retry-After * 1000` whenever that header is present (340-348), deletes
the cache entry and throws the Forbidden error carrying `retryDelay`
(350-355); any other non-ok status deletes the cache entry and throws the
HTTP error (359-371); success decrements `forbiddenErrorCount` (floored
at 0, lines 374-376) and resolves. -/
def handleResponse (s : ApiState) (now : Nat) (r : Response) : HandleResult :=
  let s1 := applySignals s r
  if r.status = 204 then
    { state := s1, cacheDeleted := false, outcome := .success }
  else if r.status = 403 then
    let s2 := { s1 with forbiddenErrorCount := s1.forbiddenErrorCount + 1,
                        lastForbiddenErrorTime := now }
    if s2.remainingRequests = 0 then
      let waitTime := s2.resetTime - now
      { state := s2, cacheDeleted := true,
        outcome := .failure { message := rateLimitMessage ((waitTime + 999) / 1000),
                              retryDelay := none } }
    else
      let retryDelay :=
        match r.retryAfter with
        | some ra => ra * 1000
        | none => s2.forbiddenErrorCount * 10000
      { state := s2, cacheDeleted := true,
        outcome := .failure { message := forbiddenMessage ((retryDelay + 999) / 1000),
                              retryDelay := some retryDelay } }
  else if r.status < 200 ∨ 300 ≤ r.status then
    { state := s1, cacheDeleted := true,
      outcome := .failure { message := httpErrorMessage r.status r.errorMessage,
                            retryDelay := none } }
  else
    let s3 := if 0 < s1.forbiddenErrorCount then
        { s1 with forbiddenErrorCount := s1.forbiddenErrorCount - 1 }
      else s1
    { state := s3, cacheDeleted := false, outcome := .success }

/-- What one error-recovery branch decides to do with the original call:
push a retry thunk onto the tail of the request queue, schedule a retry
after a timer, or reject the caller's promise with a message. -/
inductive CatchAction where
  | enqueueRetry
  | retryAfter (delayMs : Nat)
  | rejectWith (msg : String)
deriving DecidableEq, Repr

/-- A recovery decision together with whether the branch deleted the cache
entry first. -/
structure CatchResult where
  cacheDeleted : Bool
  action : CatchAction
deriving DecidableEq, Repr

/-- Is the action a retry (either through the queue or a timer)? -/
def isRetry : CatchAction → Bool
  | .enqueueRetry => true
  | .retryAfter _ => true
  | .rejectWith _ => false

/-- The `.catch` handler of `executeRequest` (lines 390-421).  It always
deletes the cache entry (392); a message containing
`rate limit exceeded` re-enqueues the descriptor at the queue tail
(396-405); a message containing `Forbidden` schedules a retry after
`error.retryDelay || 30000` milliseconds (408-417); anything else rejects
the caller's promise with the wrapped message
(420, with the JS `error.message || '네트워크 오류'` fallback). -/
def handleCatch (e : ApiError) : CatchResult :=
  { cacheDeleted := true,
    action :=
      if strContains e.message "rate limit exceeded" then .enqueueRetry
      else if strContains e.message "Forbidden" then
        .retryAfter
          (match e.retryDelay with
           | some d => if d = 0 then 30000 else d
           | none => 30000)
      else .rejectWith ("요청 실패: " ++ (if e.message = "" then "네트워크 오류" else e.message)) }

/-- The `.catch` attached to a cache hit (lines 244-266).  When the cached
promise fails, the entry is deleted (247) and the call is replayed: via
the request queue for rate-limit errors (250-256), after a fixed 30000 ms
timer for Forbidden errors (259-262), and after a fixed 5000 ms timer for
every other error (265).  No branch rejects the caller's promise. -/
def onCachedFailure (e : ApiError) : CatchResult :=
  { cacheDeleted := true,
    action :=
      if strContains e.message "rate limit exceeded" then .enqueueRetry
      else if strContains e.message "Forbidden" then .retryAfter 30000
      else .retryAfter 5000 }

/-- The queue-related module state read by `processQueue`: the FIFO
`requestQueue` (line 162), the `isProcessingQueue` drain flag (line 163)
and the quota variables. -/
structure QueueState (α : Type) where
  requestQueue : List α
  isProcessingQueue : Bool
  api : ApiState

/-- The observable effect of one `processQueue()` invocation: the items it
executed (in order), the queue and flags left behind, the per-item delay
it used, and the absolute time of the `setTimeout` resume it scheduled in
the cooldown branch, if any. -/
structure DrainResult (α : Type) where
  executed : List α
  queueAfter : List α
  isProcessingAfter : Bool
  apiAfter : ApiState
  delayUsed : Nat
  resumeAt : Option Nat

/-- The adaptive inter-request delay (lines 206-217): the base
`REQUEST_DELAY`, quadrupled when at most 5 requests remain and doubled
when at most 15 remain, plus `forbiddenErrorCount * 2000` when any
forbidden errors are outstanding. -/
def drainDelay (s : ApiState) : Nat :=
  let d := if s.remainingRequests ≤ 5 then REQUEST_DELAY * 4
    else if s.remainingRequests ≤ 15 then REQUEST_DELAY * 2
    else REQUEST_DELAY
  if 0 < s.forbiddenErrorCount then d + s.forbiddenErrorCount * 2000 else d

/-- One invocation of `processQueue` (lines 178-230).  It returns at once
when a drain is already active or the queue is empty (179); otherwise it
raises the drain flag.  In cooldown — `forbiddenErrorCount ≥
MAX_FORBIDDEN_ERRORS` and less than `FORBIDDEN_COOLDOWN` since the last
forbidden error (185-186) — it executes nothing, keeps the whole queue
and schedules a resume for when the cooldown ends (190-195).  Otherwise,
if `resetTime` has passed, the quota falls back to the unauthenticated
default `remainingRequests = 60` with a fresh one-hour horizon and
`forbiddenErrorCount = 0` (199-204); then the drain loop executes every
queued item in FIFO order with the adaptive delay between items
(221-227) and lowers the flag (229). -/
def processQueue {α : Type} (now : Nat) (s : QueueState α) : DrainResult α :=
  if s.isProcessingQueue || s.requestQueue.isEmpty then
    { executed := [], queueAfter := s.requestQueue,
      isProcessingAfter := s.isProcessingQueue, apiAfter := s.api,
      delayUsed := 0, resumeAt := none }
  else if MAX_FORBIDDEN_ERRORS ≤ s.api.forbiddenErrorCount ∧
      now - s.api.lastForbiddenErrorTime < FORBIDDEN_COOLDOWN then
    { executed := [], queueAfter := s.requestQueue, isProcessingAfter := true,
      apiAfter := s.api, delayUsed := 0,
      resumeAt := some (now + (FORBIDDEN_COOLDOWN - (now - s.api.lastForbiddenErrorTime))) }
  else
    let api := if s.api.resetTime < now then
        { s.api with remainingRequests := 60, resetTime := now + 3600000,
                     forbiddenErrorCount := 0 }
      else s.api
    { executed := s.requestQueue, queueAfter := [], isProcessingAfter := false,
      apiAfter := api, delayUsed := drainDelay api, resumeAt := none }

/-- `requestQueue.push(x)` (lines 253, 402, 425): append at the tail. -/
def enqueue {α : Type} (q : List α) (x : α) : List α := q ++ [x]

/-- The pagination loop shared by `getFollowers` (lines 509-528),
`getFollowing` (573-592) and, with `limit = 0`, `getRepos` (445-458):
while there is a next page and (`limit = 0` or fewer than `limit` items
are accumulated), fetch page `page`; an empty page stops; a page that
would overflow a positive `limit` contributes only its first
`limit - acc.length` items (`followers.slice(0, neededCount)`) and stops;
a full page (exactly `pageSize` items) continues with the next page
number; a short page stops.  `fuel` bounds the recursion (the source loop
has no bound; every claim below is settled with ample fuel).  Returns the
accumulated items and the number of page requests issued. -/
def followersLoop {α : Type} (pages : Nat → List α) (pageSize limit : Nat) :
    Nat → Nat → List α → Nat → List α × Nat
  | 0, _, acc, reqs => (acc, reqs)
  | fuel + 1, page, acc, reqs =>
    if acc.length < limit ∨ limit = 0 then
      let items := pages page
      if 0 < items.length then
        if 0 < limit ∧ limit < acc.length + items.length then
          (acc ++ items.take (limit - acc.length), reqs + 1)
        else if items.length = pageSize then
          followersLoop pages pageSize limit fuel (page + 1) (acc ++ items) (reqs + 1)
        else (acc ++ items, reqs + 1)
      else (acc, reqs + 1)
    else (acc, reqs)

/-- `getFollowers(username, limit)` (lines 484-545) after the secondary
session-storage cache misses: run the pagination loop from page 1 with
`per_page = 100` over the remote page source. -/
def getFollowers {α : Type} (pages : Nat → List α) (limit : Nat) : List α × Nat :=
  followersLoop pages 100 limit 1000 1 [] 0

/-- A three-page remote source: pages 1, 2, 3 return the given lists,
later pages are empty. -/
def pages3 {α : Type} (l1 l2 l3 : List α) (page : Nat) : List α :=
  if page = 1 then l1 else if page = 2 then l2 else if page = 3 then l3 else []

theorem containsSeq_nil_pat (l : List Char) : containsSeq [] l = true := by
  cases l <;> simp [containsSeq, prefixEq]

theorem prefixEq_append (pat l m : List Char) (h : prefixEq pat l = true) :
    prefixEq pat (l ++ m) = true := by
  induction pat generalizing l with
  | nil => simp [prefixEq]
  | cons a as ih =>
    cases l with
    | nil => simp [prefixEq] at h
    | cons b bs =>
      simp only [prefixEq, List.cons_append, Bool.and_eq_true] at h ⊢
      exact ⟨h.1, ih bs h.2⟩

theorem containsSeq_append (pat l m : List Char) (h : containsSeq pat l = true) :
    containsSeq pat (l ++ m) = true := by
  induction l with
  | nil =>
    cases pat with
    | nil => exact containsSeq_nil_pat m
    | cons c cs => simp [containsSeq, prefixEq] at h
  | cons c cs ih =>
    simp only [containsSeq, List.cons_append, Bool.or_eq_true] at h ⊢
    rcases h with h | h
    · exact Or.inl (prefixEq_append _ _ _ h)
    · exact Or.inr (ih h)

theorem strContains_append_left (a b pat : String) (h : strContains a pat = true) :
    strContains (a ++ b) pat = true := by
  unfold strContains at h ⊢
  rw [String.data_append]
  exact containsSeq_append _ _ _ h

/-- The quota-exhausted error message always matches the substring on which
the catch handlers dispatch. -/
theorem rateLimitMessage_contains (secs : Nat) :
    strContains (rateLimitMessage secs) "rate limit exceeded" = true := by
  unfold rateLimitMessage
  exact strContains_append_left _ _ _ (by decide)

/-- C1: the spec promises that N concurrent `cachedRequest` calls with an
identical descriptor collapse to one network call.  The source's
`cachedRequest` (lines 240-428) never stores the promise it creates — the
function contains no `cache.set` — so a second call with the same
descriptor, made while the first is still in flight, misses the cache and
issues a second network call: starting from the empty cache, two calls
with the same key both issue a fetch and the cache is still empty
afterwards. -/
theorem dedup_cache_never_populated :
    (cachedRequest [] "/api/github/users/alice").issuesNetworkCall = true ∧
    (cachedRequest (cachedRequest [] "/api/github/users/alice").cacheAfter
        "/api/github/users/alice").issuesNetworkCall = true ∧
    (cachedRequest (cachedRequest [] "/api/github/users/alice").cacheAfter
        "/api/github/users/alice").cacheAfter = [] := by
  decide

/-- C2 counterexample: an entry whose promise resolved successfully (with
the `_timestamp` the handler attaches) is removed by the periodic
`cleanupCache` sweep once more than `CACHE_EXPIRY` (30 minutes) has
elapsed — an operation other than the Credential Manager's full purge. -/
theorem cleanup_removes_resolved_entry :
    cleanupCache (CACHE_EXPIRY + 2) [("k", EntryState.resolved (some 1))] = [] := by
  decide

/-- C2 amended: a successfully resolved entry does not persist for the
process lifetime; besides `setGitHubToken`'s full purge, the periodic
`cleanupCache` also removes it once its timestamp is more than 30 minutes
old (and removes every rejected entry), while `setGitHubToken` with a
non-blank token empties the cache entirely. -/
theorem cache_success_removal_cleanup (now t : Nat) (k : String) (c : Cache)
    (s : ApiState) (ht : t ≠ 0) (hstale : CACHE_EXPIRY < now - t) :
    (k, EntryState.resolved (some t)) ∉ cleanupCache now c ∧
    (k, EntryState.rejected) ∉ cleanupCache now c ∧
    (setGitHubToken "ghp_0123456789" now s c).2 = [] := by
  refine ⟨?_, ?_, ?_⟩
  · intro hmem
    rw [cleanupCache, List.mem_filter] at hmem
    have h2 := hmem.2
    simp [keepEntry, ht, hstale] at h2
  · intro hmem
    rw [cleanupCache, List.mem_filter] at hmem
    simp [keepEntry] at hmem
  · unfold setGitHubToken
    rw [if_neg (show ¬ trimChars "ghp_0123456789" = "" by decide)]

/-- Witness for `cache_success_removal_cleanup` at a concrete stale
entry. -/
theorem cache_success_removal_cleanup_witness :
    ("k", EntryState.resolved (some 1)) ∉
        cleanupCache (CACHE_EXPIRY + 2) [("k", EntryState.resolved (some 1))] ∧
    ("k", EntryState.rejected) ∉
        cleanupCache (CACHE_EXPIRY + 2) [("k", EntryState.resolved (some 1))] ∧
    (setGitHubToken "ghp_0123456789" (CACHE_EXPIRY + 2)
        { token := "", remainingRequests := 60, resetTime := 0,
          forbiddenErrorCount := 0, lastForbiddenErrorTime := 0 }
        [("k", EntryState.resolved (some 1))]).2 = [] :=
  cache_success_removal_cleanup (CACHE_EXPIRY + 2) 1 "k"
    [("k", EntryState.resolved (some 1))]
    { token := "", remainingRequests := 60, resetTime := 0,
      forbiddenErrorCount := 0, lastForbiddenErrorTime := 0 }
    (by decide) (by decide)

/-- C5 counterexample: when a cached entry fails with a plain HTTP error,
the caller does not observe that failure — the cached-path catch handler
(lines 244-266) schedules a transparent per-caller retry after 5000 ms. -/
theorem cached_failure_retried_not_surfaced :
    (onCachedFailure { message := "HTTP Error: 404 - Not Found", retryDelay := none }).action
      = CatchAction.retryAfter 5000 ∧
    isRetry (onCachedFailure
      { message := "HTTP Error: 404 - Not Found", retryDelay := none }).action = true := by
  decide

/-- C5 amended: a call that hits an existing cache entry returns a result
derived from that entry; on the entry's failure the entry is removed and
the call is transparently replayed (through the queue for rate-limit
errors, after 30 s for Forbidden errors, after 5 s otherwise) — the
cached failure itself is never surfaced to the caller. -/
theorem cached_entry_failure_retries (e : ApiError) :
    (onCachedFailure e).cacheDeleted = true ∧
    isRetry (onCachedFailure e).action = true := by
  refine ⟨rfl, ?_⟩
  show isRetry (if strContains e.message "rate limit exceeded" then CatchAction.enqueueRetry
    else if strContains e.message "Forbidden" then CatchAction.retryAfter 30000
    else CatchAction.retryAfter 5000) = true
  split
  · rfl
  · split <;> rfl

/-- C6 counterexample: a network/transport failure (the fetch itself
rejects, e.g. with message `Failed to fetch`) is not retried at all — the
catch handler (lines 390-421) rejects the caller's promise immediately. -/
theorem network_failure_not_retried :
    (handleCatch { message := "Failed to fetch", retryDelay := none }).action
      = CatchAction.rejectWith "요청 실패: Failed to fetch" ∧
    isRetry (handleCatch { message := "Failed to fetch", retryDelay := none }).action
      = false := by
  decide

/-- C6 amended: on a network/transport failure (an error whose message
matches neither retryable class), the pipeline deletes the cache entry
and surfaces the failure to the caller immediately, wrapped as
`요청 실패: ...`; no retry is attempted. -/
theorem network_failure_surfaced_immediately (e : ApiError)
    (h1 : strContains e.message "rate limit exceeded" = false)
    (h2 : strContains e.message "Forbidden" = false) :
    (handleCatch e).cacheDeleted = true ∧
    (handleCatch e).action = CatchAction.rejectWith
      ("요청 실패: " ++ (if e.message = "" then "네트워크 오류" else e.message)) := by
  refine ⟨rfl, ?_⟩
  show (if strContains e.message "rate limit exceeded" then CatchAction.enqueueRetry
    else if strContains e.message "Forbidden" then
      CatchAction.retryAfter
        (match e.retryDelay with
         | some d => if d = 0 then 30000 else d
         | none => 30000)
    else CatchAction.rejectWith
      ("요청 실패: " ++ (if e.message = "" then "네트워크 오류" else e.message))) = _
  rw [h1, h2]
  simp

/-- Witness for `network_failure_surfaced_immediately` at a concrete
transport error. -/
theorem network_failure_surfaced_immediately_witness :
    (handleCatch { message := "Failed to fetch", retryDelay := none }).cacheDeleted = true ∧
    (handleCatch { message := "Failed to fetch", retryDelay := none }).action
      = CatchAction.rejectWith "요청 실패: Failed to fetch" :=
  network_failure_surfaced_immediately
    { message := "Failed to fetch", retryDelay := none } (by decide) (by decide)

theorem applySignals_forbiddenErrorCount (s : ApiState) (r : Response) :
    (applySignals s r).forbiddenErrorCount = s.forbiddenErrorCount := by
  cases h1 : r.rateLimitRemaining <;> cases h2 : r.rateLimitReset <;>
    simp [applySignals, h1, h2]

/-- C3 counterexample: on a quota-exhausted response (403 with
`X-RateLimit-Remaining: 0`) the handler does increment
`forbiddenErrorCount` — the increment at line 322 runs before the
`remainingRequests === 0` test at line 325. -/
theorem quota_exhausted_increments_forbidden :
    (handleResponse
      { token := "", remainingRequests := 5, resetTime := 10000,
        forbiddenErrorCount := 0, lastForbiddenErrorTime := 0 } 1000
      { status := 403, rateLimitRemaining := some 0, rateLimitReset := none,
        retryAfter := none, errorMessage := "" }).state.forbiddenErrorCount = 1 := by
  decide

/-- C3 amended: for every response classified as quota exhausted (403 with
remaining requests 0 after applying the quota headers), the handler
deletes the dedup cache entry, throws the rate-limit error whose catch
branch re-enqueues the same descriptor at the tail of the request queue —
and it does increment `forbiddenErrorCount` (and stamps
`lastForbiddenErrorTime`), because the increment precedes the
quota-exhaustion test. -/
theorem quota_exhausted_requeues (s : ApiState) (now : Nat) (r : Response)
    (h403 : r.status = 403)
    (hrem : (applySignals s r).remainingRequests = 0) :
    (handleResponse s now r).cacheDeleted = true ∧
    ((handleResponse s now r).outcome.errOpt.map (fun e => (handleCatch e).action))
      = some CatchAction.enqueueRetry ∧
    (∀ (q : List Nat) (d : Nat), enqueue q d = q ++ [d]) ∧
    (handleResponse s now r).state.forbiddenErrorCount = s.forbiddenErrorCount + 1 ∧
    (handleResponse s now r).state.lastForbiddenErrorTime = now := by
  have hact : ∀ (secs : Nat) (rd : Option Nat),
      (handleCatch ⟨rateLimitMessage secs, rd⟩).action = CatchAction.enqueueRetry := by
    intro secs rd
    have hc := rateLimitMessage_contains secs
    simp [handleCatch, hc]
  refine ⟨?_, ?_, fun q d => rfl, ?_, ?_⟩ <;>
    simp [handleResponse, h403, hrem, FetchOutcome.errOpt, hact,
      applySignals_forbiddenErrorCount]

/-- Witness for `quota_exhausted_requeues` at a concrete exhausted
response. -/
theorem quota_exhausted_requeues_witness :
    (handleResponse
      { token := "", remainingRequests := 5, resetTime := 10000,
        forbiddenErrorCount := 0, lastForbiddenErrorTime := 0 } 1000
      { status := 403, rateLimitRemaining := some 0, rateLimitReset := none,
        retryAfter := none, errorMessage := "" }).cacheDeleted = true ∧
    ((handleResponse
      { token := "", remainingRequests := 5, resetTime := 10000,
        forbiddenErrorCount := 0, lastForbiddenErrorTime := 0 } 1000
      { status := 403, rateLimitRemaining := some 0, rateLimitReset := none,
        retryAfter := none, errorMessage := "" }).outcome.errOpt.map
        (fun e => (handleCatch e).action)) = some CatchAction.enqueueRetry ∧
    (∀ (q : List Nat) (d : Nat), enqueue q d = q ++ [d]) ∧
    (handleResponse
      { token := "", remainingRequests := 5, resetTime := 10000,
        forbiddenErrorCount := 0, lastForbiddenErrorTime := 0 } 1000
      { status := 403, rateLimitRemaining := some 0, rateLimitReset := none,
        retryAfter := none, errorMessage := "" }).state.forbiddenErrorCount = 0 + 1 ∧
    (handleResponse
      { token := "", remainingRequests := 5, resetTime := 10000,
        forbiddenErrorCount := 0, lastForbiddenErrorTime := 0 } 1000
      { status := 403, rateLimitRemaining := some 0, rateLimitReset := none,
        retryAfter := none, errorMessage := "" }).state.lastForbiddenErrorTime = 1000 :=
  quota_exhausted_requeues
    { token := "", remainingRequests := 5, resetTime := 10000,
      forbiddenErrorCount := 0, lastForbiddenErrorTime := 0 } 1000
    { status := 403, rateLimitRemaining := some 0, rateLimitReset := none,
      retryAfter := none, errorMessage := "" } rfl rfl

/-- C4 counterexample: a 403 with quota remaining, a `Retry-After: 1`
hint and one prior forbidden error: the scheduled retry delay is
`1 * 1000 = 1000` ms — the server hint is used verbatim — although
`forbiddenErrorCount * 10000 = 20000` is larger, so the claimed
`max(hint, count * increment)` (which would give 20000) does not hold. -/
theorem retry_hint_overrides_not_max :
    ((handleResponse
      { token := "", remainingRequests := 10, resetTime := 0,
        forbiddenErrorCount := 1, lastForbiddenErrorTime := 0 } 1000
      { status := 403, rateLimitRemaining := some 10, rateLimitReset := none,
        retryAfter := some 1, errorMessage := "" }).outcome.errOpt.map
        (fun e => (handleCatch e).action)) = some (CatchAction.retryAfter 1000) ∧
    ¬ (1000 = max 1000
        ((handleResponse
          { token := "", remainingRequests := 10, resetTime := 0,
            forbiddenErrorCount := 1, lastForbiddenErrorTime := 0 } 1000
          { status := 403, rateLimitRemaining := some 10, rateLimitReset := none,
            retryAfter := some 1, errorMessage := "" }).state.forbiddenErrorCount
          * 10000)) := by
  decide

/-- C4 amended: for every access-denied (403, quota not exhausted)
response, the handler deletes the cache entry, increments
`forbiddenErrorCount`, and attaches the retry delay
`Retry-After * 1000` when the hint header is present — used verbatim,
even when smaller than `forbiddenErrorCount * 10000` — and
`forbiddenErrorCount * 10000` (with the incremented count) otherwise. -/
theorem access_denied_delay_formula (s : ApiState) (now : Nat) (r : Response)
    (h403 : r.status = 403)
    (hrem : (applySignals s r).remainingRequests ≠ 0) :
    (handleResponse s now r).cacheDeleted = true ∧
    ((handleResponse s now r).outcome.errOpt.map ApiError.retryDelay)
      = some (some (match r.retryAfter with
          | some ra => ra * 1000
          | none => (s.forbiddenErrorCount + 1) * 10000)) ∧
    (handleResponse s now r).state.forbiddenErrorCount = s.forbiddenErrorCount + 1 ∧
    (handleResponse s now r).state.lastForbiddenErrorTime = now := by
  refine ⟨?_, ?_, ?_, ?_⟩ <;>
    simp [handleResponse, h403, hrem, FetchOutcome.errOpt,
      applySignals_forbiddenErrorCount]

/-- Witness for `access_denied_delay_formula` at the concrete response of
the counterexample. -/
theorem access_denied_delay_formula_witness :
    (handleResponse
      { token := "", remainingRequests := 10, resetTime := 0,
        forbiddenErrorCount := 1, lastForbiddenErrorTime := 0 } 1000
      { status := 403, rateLimitRemaining := some 10, rateLimitReset := none,
        retryAfter := some 1, errorMessage := "" }).cacheDeleted = true ∧
    ((handleResponse
      { token := "", remainingRequests := 10, resetTime := 0,
        forbiddenErrorCount := 1, lastForbiddenErrorTime := 0 } 1000
      { status := 403, rateLimitRemaining := some 10, rateLimitReset := none,
        retryAfter := some 1, errorMessage := "" }).outcome.errOpt.map
        ApiError.retryDelay)
      = some (some (match (some 1 : Option Nat) with
          | some ra => ra * 1000
          | none => (1 + 1) * 10000)) ∧
    (handleResponse
      { token := "", remainingRequests := 10, resetTime := 0,
        forbiddenErrorCount := 1, lastForbiddenErrorTime := 0 } 1000
      { status := 403, rateLimitRemaining := some 10, rateLimitReset := none,
        retryAfter := some 1, errorMessage := "" }).state.forbiddenErrorCount = 1 + 1 ∧
    (handleResponse
      { token := "", remainingRequests := 10, resetTime := 0,
        forbiddenErrorCount := 1, lastForbiddenErrorTime := 0 } 1000
      { status := 403, rateLimitRemaining := some 10, rateLimitReset := none,
        retryAfter := some 1, errorMessage := "" }).state.lastForbiddenErrorTime
      = 1000 :=
  access_denied_delay_formula
    { token := "", remainingRequests := 10, resetTime := 0,
      forbiddenErrorCount := 1, lastForbiddenErrorTime := 0 } 1000
    { status := 403, rateLimitRemaining := some 10, rateLimitReset := none,
      retryAfter := some 1, errorMessage := "" } rfl (by decide)

theorem followersLoop_succ {α : Type} (pages : Nat → List α) (pageSize limit fuel page : Nat)
    (acc : List α) (reqs : Nat) :
    followersLoop pages pageSize limit (fuel + 1) page acc reqs =
      (if acc.length < limit ∨ limit = 0 then
        let items := pages page
        if 0 < items.length then
          if 0 < limit ∧ limit < acc.length + items.length then
            (acc ++ items.take (limit - acc.length), reqs + 1)
          else if items.length = pageSize then
            followersLoop pages pageSize limit fuel (page + 1) (acc ++ items) (reqs + 1)
          else (acc ++ items, reqs + 1)
        else (acc, reqs + 1)
      else (acc, reqs)) := rfl

/-- C7: with `limit = 0` (unbounded) the paginator collects the pages in
order, stopping at the first page shorter than `pageSize`: against pages
of sizes [100, 100, 42] with `pageSize = 100` it returns exactly the
concatenation of the three pages (242 items, remote order preserved) via
exactly 3 page requests. -/
theorem pagination_unbounded_three_pages (α : Type) (l1 l2 l3 : List α)
    (h1 : l1.length = 100) (h2 : l2.length = 100) (h3 : l3.length = 42) :
    getFollowers (pages3 l1 l2 l3) 0 = (l1 ++ l2 ++ l3, 3) := by
  have e1 : getFollowers (pages3 l1 l2 l3) 0
      = followersLoop (pages3 l1 l2 l3) 100 0 (999 + 1) 1 [] 0 := rfl
  rw [e1, followersLoop_succ]
  simp only [pages3]
  simp [h1, h2, h3]
  rw [show (999 : Nat) = 998 + 1 from rfl, followersLoop_succ]
  simp [pages3, h1, h2, h3]
  rw [show (998 : Nat) = 997 + 1 from rfl, followersLoop_succ]
  simp [pages3, h1, h2, h3]

/-- Witness for `pagination_unbounded_three_pages` on concrete pages. -/
theorem pagination_unbounded_three_pages_witness :
    getFollowers (pages3 (List.range 100) (List.range 100) (List.range 42)) 0
      = (List.range 100 ++ List.range 100 ++ List.range 42, 3) :=
  pagination_unbounded_three_pages Nat (List.range 100) (List.range 100)
    (List.range 42) (by simp) (by simp) (by simp)

/-- C8: with `limit > 0` the paginator stops once the accumulator reaches
`limit`, truncating the last page's contribution to exactly fill it:
against 3 pages of 100 items with `pageSize = 100`, `limit = 150` yields
the first page plus the first 50 items of the second (exactly 150 items)
via exactly 2 page requests. -/
theorem pagination_limit_truncates (α : Type) (l1 l2 l3 : List α)
    (h1 : l1.length = 100) (h2 : l2.length = 100) (h3 : l3.length = 100) :
    getFollowers (pages3 l1 l2 l3) 150 = (l1 ++ l2.take 50, 2) := by
  have e1 : getFollowers (pages3 l1 l2 l3) 150
      = followersLoop (pages3 l1 l2 l3) 100 150 (999 + 1) 1 [] 0 := rfl
  rw [e1, followersLoop_succ]
  simp [pages3, h1, h2, h3]
  rw [show (999 : Nat) = 998 + 1 from rfl, followersLoop_succ]
  simp [pages3, h1, h2, h3]

/-- Witness for `pagination_limit_truncates` on concrete pages. -/
theorem pagination_limit_truncates_witness :
    getFollowers (pages3 (List.range 100) (List.range 100) (List.range 100)) 150
      = (List.range 100 ++ (List.range 100).take 50, 2) :=
  pagination_limit_truncates Nat (List.range 100) (List.range 100)
    (List.range 100) (by simp) (by simp) (by simp)

/-- C9: when `forbiddenErrorCount ≥ 3` and the last forbidden error is
less than 60 s old, a `processQueue` invocation executes no queued item,
drops nothing, and schedules its resume for exactly
`lastForbiddenErrorTime + 60000`; the resumed invocation at that time
(cooldown over) executes every queued item in FIFO order and empties the
queue. -/
theorem cooldown_blocks_then_resumes (α : Type) (now : Nat) (s : QueueState α)
    (hproc : s.isProcessingQueue = false)
    (hne : s.requestQueue.isEmpty = false)
    (hfc : MAX_FORBIDDEN_ERRORS ≤ s.api.forbiddenErrorCount)
    (hlast : s.api.lastForbiddenErrorTime ≤ now)
    (hcd : now - s.api.lastForbiddenErrorTime < FORBIDDEN_COOLDOWN) :
    (processQueue now s).executed = [] ∧
    (processQueue now s).queueAfter = s.requestQueue ∧
    (processQueue now s).resumeAt
      = some (s.api.lastForbiddenErrorTime + FORBIDDEN_COOLDOWN) ∧
    (processQueue (s.api.lastForbiddenErrorTime + FORBIDDEN_COOLDOWN)
        { requestQueue := s.requestQueue, isProcessingQueue := false,
          api := s.api }).executed = s.requestQueue ∧
    (processQueue (s.api.lastForbiddenErrorTime + FORBIDDEN_COOLDOWN)
        { requestQueue := s.requestQueue, isProcessingQueue := false,
          api := s.api }).queueAfter = [] := by
  have hnc : ¬ (MAX_FORBIDDEN_ERRORS ≤ s.api.forbiddenErrorCount ∧
      (s.api.lastForbiddenErrorTime + FORBIDDEN_COOLDOWN)
        - s.api.lastForbiddenErrorTime < FORBIDDEN_COOLDOWN) := by
    intro h
    omega
  refine ⟨?_, ?_, ?_, ?_, ?_⟩
  · simp [processQueue, hproc, hne, hfc, hcd]
  · simp [processQueue, hproc, hne, hfc, hcd]
  · simp only [processQueue, hproc, hne, Bool.or_self, Bool.false_eq_true,
      if_false, if_pos (And.intro hfc hcd)]
    simp only [Option.some.injEq]
    simp only [FORBIDDEN_COOLDOWN] at hcd ⊢
    omega
  · simp [processQueue, hne, hnc]
  · simp [processQueue, hne, hnc]

/-- Witness for `cooldown_blocks_then_resumes` at a concrete cooldown
state. -/
theorem cooldown_blocks_then_resumes_witness :
    (processQueue 30000
      { requestQueue := [1, 2, 3], isProcessingQueue := false,
        api := { token := "", remainingRequests := 10, resetTime := 99999999,
                 forbiddenErrorCount := 3, lastForbiddenErrorTime := 10000 } }).executed
      = [] ∧
    (processQueue 30000
      { requestQueue := [1, 2, 3], isProcessingQueue := false,
        api := { token := "", remainingRequests := 10, resetTime := 99999999,
                 forbiddenErrorCount := 3, lastForbiddenErrorTime := 10000 } }).queueAfter
      = [1, 2, 3] ∧
    (processQueue 30000
      { requestQueue := [1, 2, 3], isProcessingQueue := false,
        api := { token := "", remainingRequests := 10, resetTime := 99999999,
                 forbiddenErrorCount := 3, lastForbiddenErrorTime := 10000 } }).resumeAt
      = some (10000 + FORBIDDEN_COOLDOWN) ∧
    (processQueue (10000 + FORBIDDEN_COOLDOWN)
      { requestQueue := [1, 2, 3], isProcessingQueue := false,
        api := { token := "", remainingRequests := 10, resetTime := 99999999,
                 forbiddenErrorCount := 3, lastForbiddenErrorTime := 10000 } }).executed
      = [1, 2, 3] ∧
    (processQueue (10000 + FORBIDDEN_COOLDOWN)
      { requestQueue := [1, 2, 3], isProcessingQueue := false,
        api := { token := "", remainingRequests := 10, resetTime := 99999999,
                 forbiddenErrorCount := 3, lastForbiddenErrorTime := 10000 } }).queueAfter
      = [] :=
  cooldown_blocks_then_resumes Nat 30000
    { requestQueue := [1, 2, 3], isProcessingQueue := false,
      api := { token := "", remainingRequests := 10, resetTime := 99999999,
               forbiddenErrorCount := 3, lastForbiddenErrorTime := 10000 } }
    rfl rfl (by decide) (by decide) (by decide)

/-- C10 counterexample: with a credential installed by `setGitHubToken`
(so the authenticated default 5000 was in force), once the tracked reset
time has passed and no quota headers intervene, `processQueue` resets
`remainingRequests` to 60 — not to the authenticated 5000. -/
theorem reset_fallback_ignores_token :
    ¬ ((setGitHubToken "ghp_0123456789abc" 0
        { token := "", remainingRequests := 60, resetTime := 0,
          forbiddenErrorCount := 0, lastForbiddenErrorTime := 0 } []).1.token = "") ∧
    (processQueue 3600001
      { requestQueue := [()], isProcessingQueue := false,
        api := (setGitHubToken "ghp_0123456789abc" 0
          { token := "", remainingRequests := 60, resetTime := 0,
            forbiddenErrorCount := 0, lastForbiddenErrorTime := 0 } []).1
      }).apiAfter.remainingRequests = 60 := by
  decide

/-- C10 amended: when the tracked reset time has passed and no response
quota headers are available, the drain loop resets `remainingRequests` to
the fixed default 60 regardless of whether a credential is set (the token
is not consulted); the authenticated default 5000 is installed only at
the moment `setGitHubToken` accepts a credential. -/
theorem reset_fallback_always_sixty (α : Type) (now : Nat) (s : QueueState α)
    (tok : String) (t0 : Nat) (c : Cache)
    (hproc : s.isProcessingQueue = false)
    (hne : s.requestQueue.isEmpty = false)
    (hnc : ¬ (MAX_FORBIDDEN_ERRORS ≤ s.api.forbiddenErrorCount ∧
        now - s.api.lastForbiddenErrorTime < FORBIDDEN_COOLDOWN))
    (hreset : s.api.resetTime < now)
    (htok : ¬ trimChars tok = "") :
    (processQueue now s).apiAfter.remainingRequests = 60 ∧
    (processQueue now s).apiAfter.resetTime = now + 3600000 ∧
    (processQueue now s).apiAfter.forbiddenErrorCount = 0 ∧
    (processQueue now s).apiAfter.token = s.api.token ∧
    (setGitHubToken tok t0 s.api c).1.remainingRequests = 5000 := by
  refine ⟨?_, ?_, ?_, ?_, ?_⟩
  · simp [processQueue, hproc, hne, hnc, hreset]
  · simp [processQueue, hproc, hne, hnc, hreset]
  · simp [processQueue, hproc, hne, hnc, hreset]
  · simp [processQueue, hproc, hne, hnc, hreset]
  · unfold setGitHubToken
    rw [if_neg htok]

/-- Witness for `reset_fallback_always_sixty` at a concrete authenticated
state past its reset time. -/
theorem reset_fallback_always_sixty_witness :
    (processQueue 3600001
      { requestQueue := [5], isProcessingQueue := false,
        api := { token := "ghp_0123456789abc", remainingRequests := 5000,
                 resetTime := 3600000, forbiddenErrorCount := 0,
                 lastForbiddenErrorTime := 0 } }).apiAfter.remainingRequests = 60 ∧
    (processQueue 3600001
      { requestQueue := [5], isProcessingQueue := false,
        api := { token := "ghp_0123456789abc", remainingRequests := 5000,
                 resetTime := 3600000, forbiddenErrorCount := 0,
                 lastForbiddenErrorTime := 0 } }).apiAfter.resetTime
      = 3600001 + 3600000 ∧
    (processQueue 3600001
      { requestQueue := [5], isProcessingQueue := false,
        api := { token := "ghp_0123456789abc", remainingRequests := 5000,
                 resetTime := 3600000, forbiddenErrorCount := 0,
                 lastForbiddenErrorTime := 0 } }).apiAfter.forbiddenErrorCount = 0 ∧
    (processQueue 3600001
      { requestQueue := [5], isProcessingQueue := false,
        api := { token := "ghp_0123456789abc", remainingRequests := 5000,
                 resetTime := 3600000, forbiddenErrorCount := 0,
                 lastForbiddenErrorTime := 0 } }).apiAfter.token
      = ({ token := "ghp_0123456789abc", remainingRequests := 5000,
           resetTime := 3600000, forbiddenErrorCount := 0,
           lastForbiddenErrorTime := 0 } : ApiState).token ∧
    (setGitHubToken "ghp_0123456789" 7
      { token := "ghp_0123456789abc", remainingRequests := 5000,
        resetTime := 3600000, forbiddenErrorCount := 0,
        lastForbiddenErrorTime := 0 } []).1.remainingRequests = 5000 :=
  reset_fallback_always_sixty Nat 3600001
    { requestQueue := [5], isProcessingQueue := false,
      api := { token := "ghp_0123456789abc", remainingRequests := 5000,
               resetTime := 3600000, forbiddenErrorCount := 0,
               lastForbiddenErrorTime := 0 } }
    "ghp_0123456789" 7 [] rfl rfl (by decide) (by decide) (by decide)

end GithubBoard
